import Mathlib

/-!
Verification development for the pyHomevolt client library
(`homevolt/homevolt.py`, `homevolt/const.py`, `homevolt/models.py`).

The embedding is a shallow one: decoded JSON documents are modelled by the
inductive `Json` (Python `None` and JSON `null` coincide after decoding, and
both are modelled by `Json.null`); Python numbers (`int` and `float`) are
modelled by `ℚ`; the mutable `Homevolt` client object is modelled by the
record `ClientState`, and each method that mutates it becomes a function
from the old state to the new one.  Network traffic is not modelled: the
HTTP collaborator is assumed to succeed, and the side-effecting requests a
method issues are recorded in an explicit `Effect` trace, in issue order.
Places where Python would raise on data shapes never produced by the device
(e.g. `KeyError` on a missing mandatory field, `TypeError` from `int()` on a
non-number) are modelled by total functions with inert defaults; these are
marked by comments at the definitions concerned.
-/

namespace Homevolt

/-- A decoded JSON value.  `null` also stands for Python `None`, which is
what JSON `null` decodes to. -/
inductive Json where
  | null
  | bool (b : Bool)
  | num (q : ℚ)
  | str (s : String)
  | arr (elems : List Json)
  | obj (fields : List (String × Json))

/-- Python truthiness of a decoded JSON value (`bool(x)`). -/
def Json.truthy : Json → Bool
  | .null => false
  | .bool b => b
  | .num q => q != 0
  | .str s => s != ""
  | .arr xs => !xs.isEmpty
  | .obj kvs => !kvs.isEmpty

/-- Python `==` on the scalar values that appear as dict keys and in the
mode comparisons of the source (`bool` compares equal to the corresponding
int in Python).  Containers are never compared in the code paths modelled
here, so the catch-all returns `false`. -/
def Json.keyEq : Json → Json → Bool
  | .null, .null => true
  | .bool a, .bool b => a == b
  | .bool a, .num q => (if a then (1 : ℚ) else 0) == q
  | .num q, .bool b => q == (if b then (1 : ℚ) else 0)
  | .num a, .num b => a == b
  | .str a, .str b => a == b
  | _, _ => false

/-- `x is None` in Python, for values that decode from JSON. -/
def Json.isNull : Json → Bool
  | .null => true
  | _ => false

/-- First binding of a key in an association list (Python dict lookup;
dicts built by the source never hold duplicate keys). -/
def lookupStr : List (String × Json) → String → Option Json
  | [], _ => none
  | (k, v) :: rest, key => if k = key then some v else lookupStr rest key

/-- Python `d.get(key, default)`: the stored value when the key is present
(even when that value is `None`), otherwise the default.  Non-dict
receivers would raise `AttributeError` in Python; they are modelled by the
default (unreachable for the payloads the claims exercise). -/
def Json.getD (j : Json) (k : String) (d : Json) : Json :=
  match j with
  | .obj kvs =>
    match lookupStr kvs k with
    | some v => v
    | none => d
  | _ => d

/-- Python `d.get(key)`: `None` when absent. -/
def Json.get (j : Json) (k : String) : Json := j.getD k .null

/-- Python `d[key]` subscription.  A missing key raises `KeyError` in
Python; the model returns `null` instead, which is never hit on the
well-formed payloads the claims are stated about. -/
def Json.item (j : Json) (k : String) : Json := j.getD k .null

/-- Python `key in d`. -/
def Json.hasKey (j : Json) (k : String) : Bool :=
  match j with
  | .obj kvs => kvs.any (fun p => p.1 == k)
  | _ => false

/-- Python list subscription `l[i]`.  Out-of-range or non-list receivers
raise in Python; modelled by `null` (unreachable for the claims). -/
def jidx (j : Json) (i : Nat) : Json :=
  match j with
  | .arr xs => xs.getD i .null
  | _ => .null

/-- The elements of a JSON array (the loops of the source only ever iterate
genuine lists). -/
def jlist : Json → List Json
  | .arr xs => xs
  | _ => []

/-- Numeric reading of a JSON value, for the arithmetic the source performs
on device-reported numbers.  Python `bool` is an `int`.  Other shapes would
raise `TypeError` in Python and are modelled as `0` (unreachable for the
payloads the claims exercise). -/
def jq : Json → ℚ
  | .num q => q
  | .bool b => if b then 1 else 0
  | _ => 0

/-- `value if value is not None else default`, read numerically, as in the
merging code of `set_battery_mode`. -/
def jnumD (j : Json) (d : ℚ) : ℚ :=
  match j with
  | .null => d
  | j => jq j

/-- Python `a or b` on decoded values, as used for the `min_soc`/`min`
field aliases. -/
def pyOr (a b : Json) : Json := if a.truthy then a else b

/-- Python `int()` applied to a number: truncation toward zero. -/
def pyInt (q : ℚ) : Int := q.num.tdiv (q.den : Int)

/-- Python `str()` of the scalar values interpolated into f-strings by the
source.  Container reprs are never interpolated on the modelled paths. -/
def pyStr : Json → String
  | .null => "None"
  | .bool b => if b then "True" else "False"
  | .num q => if q.den == 1 then toString q.num else toString q
  | .str s => s
  | .arr _ => "<list repr not modelled>"
  | .obj _ => "<dict repr not modelled>"

/-- Python `str.title()` restricted to what the source feeds it: uppercase
an alphabetic character that follows a non-alphabetic one, lowercase the
rest. -/
def pyTitle (s : String) : String :=
  String.mk ((s.data.foldl
    (fun (acc : List Char × Bool) c =>
      if c.isAlpha then
        ((if acc.2 then c.toLower else c.toUpper) :: acc.1, true)
      else (c :: acc.1, false))
    ([], false)).1.reverse)

/-- The string content of a JSON value where the source requires `str`
(device identifiers, `model=sensor_type`); non-strings are outside the
model. -/
def jstr : Json → String
  | .str s => s
  | _ => ""

/-- Overwrite-or-append update of an association list: the semantics of
`d[key] = value` on a Python dict. -/
def dset {α : Type} : List (String × α) → String → α → List (String × α)
  | [], k, v => [(k, v)]
  | (k', v') :: rest, k, v =>
    if k' = k then (k', v) :: rest else (k', v') :: dset rest k v

/-- Lookup in an association list built by `dset` (Python `d[key]` /
`d.get(key)` on the client's sensor and metadata dicts). -/
def dlookup {α : Type} : List (String × α) → String → Option α
  | [], _ => none
  | (k', v') :: rest, k => if k' = k then some v' else dlookup rest k

/-- Sequential `dset` of a list of bindings: `dict.update` with a literal
whose keys are written in order. -/
def dsets {α : Type} (m : List (String × α)) (kvs : List (String × α)) :
    List (String × α) :=
  kvs.foldl (fun acc kv => dset acc kv.1 kv.2) m

/-- `models.Sensor`.  `value` is `float | str | None` in the source; the
model keeps the decoded JSON value. -/
structure Sensor where
  value : Json
  type : String
  device_identifier : String := "main"

/-- `models.DeviceMetadata`. -/
structure DeviceMetadata where
  name : String
  model : String

/-- The client's `self.schedule` dict: the battery control state.  The
source initialises every field to `None` (`Json.null` here). -/
structure ScheduleState where
  mode : Json := .null
  setpoint : Json := .null
  max_charge : Json := .null
  max_discharge : Json := .null
  min_soc : Json := .null
  max_soc : Json := .null
  grid_import_limit : Json := .null
  grid_export_limit : Json := .null
  threshold_high : Json := .null
  threshold_low : Json := .null
  freq_reg_droop_up : Json := .null
  freq_reg_droop_down : Json := .null

/-- The mutable fields of the `Homevolt` client object that the parsing and
command methods read or write. -/
structure ClientState where
  unique_id : Option String := none
  sensors : List (String × Sensor) := []
  device_metadata : List (String × DeviceMetadata) := []
  current_schedule : Option Json := none
  schedule : ScheduleState := {}

/-- `const.SCHEDULE_TYPE`, exactly as shipped: a dict whose KEYS are the
snake_case mode names and whose VALUES are display strings.  (Keys are kept
as `Json` so that the integer lookups the rest of the source performs on
this table can be expressed.) -/
def SCHEDULE_TYPE : List (Json × Json) := [
  (.str "frequency_reserve", .str "Frequency reserve"),
  (.str "full_solar_export", .str "Full solar export"),
  (.str "grid_charge", .str "Grid charge"),
  (.str "grid_charge_discharge", .str "Grid charge/discharge"),
  (.str "grid_discharge", .str "Grid discharge"),
  (.str "idle", .str "Idle"),
  (.str "inverter_charge", .str "Inverter charge"),
  (.str "inverter_discharge", .str "Inverter discharge"),
  (.str "solar_charge", .str "Solar charge"),
  (.str "solar_charge_discharge", .str "Solar charge/discharge")]

/-- Python `d.get(key)` on a dict with arbitrary (scalar) keys, used for
`SCHEDULE_TYPE.get(...)` and `valid_modes[...]`: `None` when absent. -/
def dictGet (kvs : List (Json × Json)) (k : Json) : Json :=
  match kvs with
  | [] => .null
  | (k', v) :: rest => if k'.keyEq k then v else dictGet rest k

/-- `valid_modes = {v: k for k, v in SCHEDULE_TYPE.items()}` from
`set_battery_mode`. -/
def valid_modes : List (Json × Json) :=
  SCHEDULE_TYPE.map (fun p => (p.2, p.1))

/-- `mode in valid_modes` (dict key membership). -/
def isValidMode (m : String) : Bool :=
  valid_modes.any (fun p => p.1.keyEq (.str m))

/-- The errors reachable on the modelled (network-success) paths:
`HomevoltDataError` from the telemetry parser and the `ValueError` of
`set_battery_mode`. -/
inductive HomevoltError where
  | dataError
  | valueError
deriving DecidableEq

/-- One side-effecting HTTP request issued by `set_battery_mode`, in issue
order: the `enable_local_mode` POST to the params endpoint, or the console
POST carrying the rendered command string. -/
inductive Effect where
  | enableLocalMode
  | postCommand (command : String)
deriving DecidableEq

/-- The outcome of a `set_battery_mode` call: the client state after the
call, the trace of HTTP requests issued before returning or raising, and
the error raised, if any. -/
structure CallResult where
  state : ClientState
  effects : List Effect
  err : Option HomevoltError

/-- The `local_mode_enabled` property: `False` when no schedule response
has been recorded, otherwise `current_schedule.get("local_mode", False)`
(the raw stored value). -/
def local_mode_enabled (s : ClientState) : Json :=
  match s.current_schedule with
  | none => .bool false
  | some j => j.getD "local_mode" (.bool false)

/-- The caller-supplied arguments of `set_battery_mode` (numeric arguments
are `int | float` in the source, modelled as `ℚ`). -/
structure ModeRequest where
  mode : Option String := none
  setpoint : Option ℚ := none
  max_charge : Option ℚ := none
  max_discharge : Option ℚ := none
  min_soc : Option ℚ := none
  max_soc : Option ℚ := none
  grid_import_limit : Option ℚ := none
  grid_export_limit : Option ℚ := none

/-- `some n ↦ num n`, `none ↦ null`: the write-back representation of a
merged-then-possibly-nulled command value. -/
def optJson : Option Int → Json
  | some n => .num (n : ℚ)
  | none => .null

/-- `Homevolt.set_battery_mode`, assuming every HTTP request succeeds.
Mirrors the source order: ensure local mode (an `enableLocalMode` effect
when the tracked flag is falsy), validate an explicitly supplied mode name
against the reverse of `SCHEDULE_TYPE` (raising `ValueError` on failure),
merge each numeric parameter with the stored control state, apply the
mode-specific nulling chain (whose final `elif mode_int is None` arm is the
auto-detection), render the `sched_set` command, post it, and write the
sent values back into the stored control state.  Note that under the
shipped `SCHEDULE_TYPE` a validated explicit mode yields a *string*
`mode_int` (`valid_modes` maps display strings to snake_case names), so
none of the integer comparisons of the nulling chain can match it. -/
def set_battery_mode (s : ClientState) (req : ModeRequest) : CallResult :=
  let effects : List Effect :=
    if !(local_mode_enabled s).truthy then [.enableLocalMode] else []
  let mode_chk : Option Json :=
    match req.mode with
    | none => some .null
    | some m =>
      if isValidMode m then some (dictGet valid_modes (.str m)) else none
  match mode_chk with
  | none => ⟨s, effects, some .valueError⟩
  | some mode_int0 =>
    let setpoint_val : Option Int := some (pyInt (match req.setpoint with
      | some v => v
      | none => jnumD s.schedule.setpoint 0))
    let max_charge_val : Option Int := some (pyInt (match req.max_charge with
      | some v => v
      | none => jnumD s.schedule.max_charge 0))
    let max_discharge_val : Option Int :=
      some (pyInt (match req.max_discharge with
        | some v => v
        | none => jnumD s.schedule.max_discharge 0))
    let min_soc_val : Option Int := some (pyInt (match req.min_soc with
      | some v => v
      | none => jnumD s.schedule.min_soc 0))
    let max_soc_val : Option Int := some (pyInt (match req.max_soc with
      | some v => v
      | none => jnumD s.schedule.max_soc 100))
    let grid_import_limit_val : Json := match req.grid_import_limit with
      | some v => .num ((pyInt v : Int) : ℚ)
      | none => s.schedule.grid_import_limit
    let grid_export_limit_val : Json := match req.grid_export_limit with
      | some v => .num ((pyInt v : Int) : ℚ)
      | none => s.schedule.grid_export_limit
    let vals : Json × Option Int × Option Int × Option Int × Option Int × Option Int :=
      if mode_int0.keyEq (.num 0) then
        (mode_int0, none, none, none, none, none)
      else if mode_int0.keyEq (.num 1) then
        (mode_int0, none, max_charge_val, none, min_soc_val, max_soc_val)
      else if mode_int0.keyEq (.num 2) then
        (mode_int0, none, none, max_discharge_val, min_soc_val, max_soc_val)
      else if mode_int0.keyEq (.num 3) || mode_int0.keyEq (.num 4)
          || mode_int0.keyEq (.num 5) then
        (mode_int0, setpoint_val, none, none, none, none)
      else if mode_int0.keyEq (.num 7) then
        (mode_int0, none, max_charge_val, none, min_soc_val, max_soc_val)
      else if mode_int0.keyEq (.num 8) then
        (mode_int0, setpoint_val, max_charge_val, max_discharge_val, none, none)
      else if mode_int0.keyEq (.num 9) then
        (mode_int0, none, none, none, none, none)
      else if mode_int0.isNull then
        (if req.setpoint.isSome && req.max_charge.isSome
            && req.max_discharge.isSome then Json.num 8
         else if req.setpoint.isSome then Json.num 3
         else if req.max_charge.isSome && req.max_discharge.isNone then
           Json.num 1
         else if req.max_discharge.isSome && req.max_charge.isNone then
           Json.num 2
         else if !s.schedule.mode.isNull then s.schedule.mode else Json.num 0,
         setpoint_val, max_charge_val, max_discharge_val, min_soc_val,
         max_soc_val)
      else
        (mode_int0, setpoint_val, max_charge_val, max_discharge_val,
         min_soc_val, max_soc_val)
    match vals with
    | (mode_int, setpoint_v, max_charge_v, max_discharge_v, min_soc_v,
       max_soc_v) =>
      let cmd_parts : List String := ["sched_set -m " ++ pyStr mode_int]
        ++ (match setpoint_v with
            | some n => ["-s " ++ toString n]
            | none => [])
        ++ (match max_charge_v with
            | some n => ["-c " ++ toString n]
            | none => [])
        ++ (match max_discharge_v with
            | some n => ["-d " ++ toString n]
            | none => [])
        ++ (match min_soc_v with
            | some n => ["-n " ++ toString n]
            | none => [])
        ++ (match max_soc_v with
            | some n => ["-x " ++ toString n]
            | none => [])
        ++ (if grid_import_limit_val.isNull then []
            else ["-i " ++ toString (pyInt (jnumD grid_import_limit_val 0))])
        ++ (if grid_export_limit_val.isNull then []
            else ["-e " ++ toString (pyInt (jnumD grid_export_limit_val 0))])
      let command := String.intercalate " " cmd_parts
      ⟨{ s with schedule := { s.schedule with
           mode := mode_int
           setpoint := optJson setpoint_v
           max_charge := optJson max_charge_v
           max_discharge := optJson max_discharge_v
           min_soc := optJson min_soc_v
           max_soc := optJson max_soc_v
           grid_import_limit := grid_import_limit_val
           grid_export_limit := grid_export_limit_val } },
       effects ++ [.postCommand command], none⟩

/-- `Homevolt._parse_schedule_data`: record the raw response, return early
when no truthy device id is known, otherwise emit the schedule-derived
sensors and overwrite the whole control state from the first schedule
entry (a synthetic `{"type": -1, "params": {}}` when the schedule list is
absent, empty or otherwise falsy). -/
def parse_schedule_data (s : ClientState) (schedule_data : Json) :
    ClientState :=
  let s1 := { s with current_schedule := some schedule_data }
  match s1.unique_id with
  | none => s1
  | some uid =>
    if uid = "" then s1
    else
      let ems_device_id := "ems_" ++ uid
      let sensors1 := dset s1.sensors "Schedule id"
        ⟨schedule_data.get "schedule_id", "schedule_id", ems_device_id⟩
      let schedule :=
        if (schedule_data.get "schedule").truthy then
          jidx (schedule_data.getD "schedule" (.arr [.obj []])) 0
        else .obj [("type", .num (-1)), ("params", .obj [])]
      let params := schedule.getD "params" (.obj [])
      let sched2 : ScheduleState := {
        mode := schedule.get "type"
        setpoint := params.get "setpoint"
        max_charge := schedule.get "max_charge"
        max_discharge := schedule.get "max_discharge"
        min_soc := pyOr (params.get "min_soc") (params.get "min")
        max_soc := pyOr (params.get "max_soc") (params.get "max")
        grid_import_limit := params.get "grid_import_limit"
        grid_export_limit := params.get "grid_export_limit"
        threshold_high := params.get "threshold_high"
        threshold_low := params.get "threshold_low"
        freq_reg_droop_up := params.get "freq_reg_droop_up"
        freq_reg_droop_down := params.get "freq_reg_droop_down" }
      let sensors2 := dset sensors1 "Schedule Type"
        ⟨dictGet SCHEDULE_TYPE (schedule.getD "type" (.num (-1))),
         "schedule_type", ems_device_id⟩
      let sensors3 := dset sensors2 "Schedule Power Setpoint"
        ⟨sched2.setpoint, "schedule_power_setpoint", ems_device_id⟩
      let sensors4 := dset sensors3 "Schedule Max Power"
        ⟨sched2.max_charge, "schedule_max_power", ems_device_id⟩
      let sensors5 := dset sensors4 "Schedule Max Discharge"
        ⟨sched2.max_discharge, "schedule_max_discharge", ems_device_id⟩
      { s1 with sensors := sensors5, schedule := sched2 }

/-- The sensor and device-metadata dicts being accumulated by one run of
`_parse_ems_data` (the method rebuilds both from scratch). -/
structure ParseAcc where
  sensors : List (String × Sensor)
  device_metadata : List (String × DeviceMetadata)

/-- The 19 fixed EMS sensors of `_parse_ems_data`, written with the same
keys, scalings and semantic type tags as the `self.sensors.update({...})`
literal of the source. -/
def emsSensorEntries (ems_device_id : String) (ems : Json) :
    List (String × Sensor) := [
  ("L1 Voltage",
    ⟨.num (jq ((ems.item "ems_voltage").item "l1") / 10), "l1_voltage",
     ems_device_id⟩),
  ("L2 Voltage",
    ⟨.num (jq ((ems.item "ems_voltage").item "l2") / 10), "l2_voltage",
     ems_device_id⟩),
  ("L3 Voltage",
    ⟨.num (jq ((ems.item "ems_voltage").item "l3") / 10), "l3_voltage",
     ems_device_id⟩),
  ("L1_L2 Voltage",
    ⟨.num (jq ((ems.item "ems_voltage").item "l1_l2") / 10), "l1_l2_voltage",
     ems_device_id⟩),
  ("L2_L3 Voltage",
    ⟨.num (jq ((ems.item "ems_voltage").item "l2_l3") / 10), "l2_l3_voltage",
     ems_device_id⟩),
  ("L3_L1 Voltage",
    ⟨.num (jq ((ems.item "ems_voltage").item "l3_l1") / 10), "l3_l1_voltage",
     ems_device_id⟩),
  ("L1 Current",
    ⟨(ems.item "ems_current").item "l1", "l1_current", ems_device_id⟩),
  ("L2 Current",
    ⟨(ems.item "ems_current").item "l2", "l2_current", ems_device_id⟩),
  ("L3 Current",
    ⟨(ems.item "ems_current").item "l3", "l3_current", ems_device_id⟩),
  ("System Temperature",
    ⟨.num (jq ((ems.item "ems_data").item "sys_temp") / 10),
     "system_temperature", ems_device_id⟩),
  ("Energy imported",
    ⟨(ems.item "ems_aggregate").item "imported_kwh", "energy_imported",
     ems_device_id⟩),
  ("Energy exported",
    ⟨(ems.item "ems_aggregate").item "exported_kwh", "energy_exported",
     ems_device_id⟩),
  ("Available Charging Power",
    ⟨(ems.item "ems_prediction").item "avail_ch_pwr",
     "available_charging_power", ems_device_id⟩),
  ("Available Discharge Power",
    ⟨(ems.item "ems_prediction").item "avail_di_pwr",
     "available_discharge_power", ems_device_id⟩),
  ("Available Charging Energy",
    ⟨(ems.item "ems_prediction").item "avail_ch_energy",
     "available_charging_energy", ems_device_id⟩),
  ("Available Discharge Energy",
    ⟨(ems.item "ems_prediction").item "avail_di_energy",
     "available_discharge_energy", ems_device_id⟩),
  ("Power", ⟨(ems.item "ems_data").item "power", "power", ems_device_id⟩),
  ("Frequency",
    ⟨(ems.item "ems_data").item "frequency", "frequency", ems_device_id⟩),
  ("State of Charge",
    ⟨.num (jq ((ems.item "ems_data").item "soc_avg") / 100),
     "state_of_charge", ems_device_id⟩)]

/-- One iteration of the `for bat_id, battery in enumerate(...)` loop of
`_parse_ems_data`: a metadata entry for the blade, then one sensor per
measurement field actually present in the module's record. -/
def batteryStep (acc : ParseAcc) (p : Nat × Json) : ParseAcc :=
  let bat_id := p.1
  let battery := p.2
  let battery_device_id := "battery_" ++ toString bat_id
  let md := dset acc.device_metadata battery_device_id
    ⟨"Battery blade " ++ toString bat_id, "Battery blade"⟩
  let s0 := acc.sensors
  let s1 := if battery.hasKey "soc" then
      dset s0 ("Homevolt battery " ++ toString bat_id)
        ⟨.num (jq (battery.item "soc") / 100), "state_of_charge",
         battery_device_id⟩
    else s0
  let s2 := if battery.hasKey "tmin" then
      dset s1 ("Homevolt battery " ++ toString bat_id ++ " tmin")
        ⟨.num (jq (battery.item "tmin") / 10), "tmin", battery_device_id⟩
    else s1
  let s3 := if battery.hasKey "tmax" then
      dset s2 ("Homevolt battery " ++ toString bat_id ++ " tmax")
        ⟨.num (jq (battery.item "tmax") / 10), "tmax", battery_device_id⟩
    else s2
  let s4 := if battery.hasKey "cycle_count" then
      dset s3 ("Homevolt battery " ++ toString bat_id ++ " charge cycles")
        ⟨battery.item "cycle_count", "charge_cycles", battery_device_id⟩
    else s3
  let s5 := if battery.hasKey "voltage" then
      dset s4 ("Homevolt battery " ++ toString bat_id ++ " voltage")
        ⟨.num (jq (battery.item "voltage") / 100), "voltage",
         battery_device_id⟩
    else s4
  let s6 := if battery.hasKey "current" then
      dset s5 ("Homevolt battery " ++ toString bat_id ++ " current")
        ⟨battery.item "current", "current", battery_device_id⟩
    else s5
  let s7 := if battery.hasKey "power" then
      dset s6 ("Homevolt battery " ++ toString bat_id ++ " power")
        ⟨battery.item "power", "power", battery_device_id⟩
    else s6
  let s8 := if battery.hasKey "soh" then
      dset s7 ("Homevolt battery " ++ toString bat_id ++ " soh")
        ⟨.num (jq (battery.item "soh") / 100), "soh", battery_device_id⟩
    else s7
  ⟨s8, md⟩

/-- The `continue` ladder at the head of the auxiliary-sensor loop of
`_parse_ems_data`.  Returns `none` when the entry is skipped; otherwise the
resolved `sensor_type`, the `function` string, and the `euid`.  The walrus
tests of the source are truthiness tests, the `"ems"` comparison lives only
in the `sensor_type` branch, and the common `euid` check that follows the
branch ladder in the source is inlined into each surviving branch (same
observable order of `continue`s). -/
def auxResolve (sensor : Json) : Option (Json × String × Json) :=
  if !(sensor.get "available").truthy then none
  else if (sensor.get "sensor_type").truthy then
    if (sensor.get "sensor_type").keyEq (.str "ems") then none
    else if !(sensor.get "euid").truthy then none
    else some (sensor.get "sensor_type",
               jstr (sensor.getD "function" (.str "")),
               sensor.get "euid")
  else if (sensor.get "type").truthy then
    if !(sensor.get "euid").truthy then none
    else some (sensor.get "type", "", sensor.get "euid")
  else none

/-- Whether an auxiliary sensor entry is skipped entirely by the telemetry
parse (every `continue` of the loop head). -/
def auxSkipped (sensor : Json) : Bool := (auxResolve sensor).isNone

/-- One iteration of the inner `for phase_name, phase in zip(...)` loop:
the three per-phase sensors of one auxiliary device. -/
def phaseStep (st : String) (sensor_device_id : String)
    (acc : List (String × Sensor)) (pp : String × Json) :
    List (String × Sensor) :=
  let phase_name := pp.1
  let phase := pp.2
  let phase_lower := phase_name.toLower
  let a1 := dset acc (phase_name ++ " Voltage " ++ st)
    ⟨phase.get "voltage", phase_lower ++ "_voltage", sensor_device_id⟩
  let a2 := dset a1 (phase_name ++ " Current " ++ st)
    ⟨phase.get "amp", phase_lower ++ "_current", sensor_device_id⟩
  dset a2 (phase_name ++ " Power " ++ st)
    ⟨phase.get "power", phase_lower ++ "_power", sensor_device_id⟩

/-- One iteration of the `for sensor in ems_data.get("sensors", [])` loop
of `_parse_ems_data`.  (`euid` is used both as metadata key and as the
sensors' device identifier; the source stores the raw value, which is a
string for real devices — non-string `euid`s are outside the model.) -/
def auxStep (acc : ParseAcc) (sensor : Json) : ParseAcc :=
  match auxResolve sensor with
  | none => acc
  | some (sensor_type, function, euid) =>
    let sensor_device_id := jstr euid
    let name := ((pyTitle (pyStr sensor_type) ++ " " ++ pyTitle function
        ++ " Sensor").replace "  " " ").replace "_" " "
    let md := dset acc.device_metadata sensor_device_id
      ⟨name, jstr sensor_type⟩
    let st := pyStr sensor_type
    let total_power : ℚ :=
      ((jlist (sensor.getD "phase" (.arr []))).map
        (fun phase => jq (phase.item "power"))).sum
    let s1 := dset acc.sensors ("Power " ++ st)
      ⟨.num total_power, "power", sensor_device_id⟩
    let s2 := dset s1 ("Energy imported " ++ st)
      ⟨sensor.getD "energy_imported" (.num 0), "energy_imported",
       sensor_device_id⟩
    let s3 := dset s2 ("Energy exported " ++ st)
      ⟨sensor.getD "energy_exported" (.num 0), "energy_exported",
       sensor_device_id⟩
    let s4 := dset s3 ("RSSI " ++ st)
      ⟨sensor.get "rssi", "rssi", sensor_device_id⟩
    let s5 := dset s4 ("Average RSSI " ++ st)
      ⟨sensor.get "average_rssi", "average_rssi", sensor_device_id⟩
    let phasePairs :=
      List.zip ["L1", "L2", "L3"] (jlist (sensor.getD "phase" (.arr [])))
    let s6 := phasePairs.foldl (phaseStep st sensor_device_id) s5
    ⟨s6, md⟩

/-- `Homevolt._parse_ems_data`: raise `HomevoltDataError` when the
top-level `ems` list is absent or falsy — the source raises before mutating
anything, so the error outcome carries the caller's state unchanged —
otherwise rebuild `device_metadata` and `sensors` from scratch (the EMS
entry, the 19 fixed sensors, the battery-blade loop, the auxiliary-sensor
loop) and record the discovered device id. -/
def parse_ems_data (s : ClientState) (ems_data : Json) :
    ClientState × Option HomevoltError :=
  if !(ems_data.get "ems").truthy then (s, some .dataError)
  else
    let ems := jidx (ems_data.item "ems") 0
    let device_id := pyStr (ems.item "ecu_id")
    let ems_device_id := "ems_" ++ device_id
    let acc0 : ParseAcc :=
      ⟨dsets [] (emsSensorEntries ems_device_id ems),
       [(ems_device_id, ⟨"EMS " ++ device_id, "EMS"⟩)]⟩
    let acc1 :=
      ((jlist (ems.getD "bms_data" (.arr []))).enum).foldl batteryStep acc0
    let acc2 :=
      (jlist (ems_data.getD "sensors" (.arr []))).foldl auxStep acc1
    ({ s with
        unique_id := some device_id
        sensors := acc2.sensors
        device_metadata := acc2.device_metadata }, none)

/-! ### Dictionary and string helper lemmas -/

theorem dlookup_dset_self {α : Type} (m : List (String × α)) (k : String)
    (v : α) : dlookup (dset m k v) k = some v := by
  induction m with
  | nil => simp [dset, dlookup]
  | cons p rest ih =>
    obtain ⟨k1, v1⟩ := p
    by_cases h : k1 = k
    · subst h; simp [dset, dlookup]
    · simp [dset, dlookup, h, ih]

theorem dlookup_dset_ne {α : Type} (m : List (String × α)) (k k2 : String)
    (v : α) (h : k2 ≠ k) : dlookup (dset m k v) k2 = dlookup m k2 := by
  induction m with
  | nil => simp [dset, dlookup, Ne.symm h]
  | cons p rest ih =>
    obtain ⟨k1, v1⟩ := p
    by_cases h1 : k1 = k
    · subst h1; simp [dset, dlookup, Ne.symm h]
    · simp [dset, dlookup, h1, ih]

theorem dlookup_ite_dset_ne {α : Type} (c : Prop) [Decidable c]
    (m : List (String × α)) (k k2 : String) (v : α) (h : k2 ≠ k) :
    dlookup (if c then dset m k v else m) k2 = dlookup m k2 := by
  split
  · exact dlookup_dset_ne _ _ _ _ h
  · rfl

theorem string_data_append (a b : String) :
    (a ++ b).data = a.data ++ b.data := by
  cases a; cases b; rfl

theorem head?_append_of_head? {a : String} (t : String) {c : Char}
    (ha : a.data.head? = some c) : (a ++ t).data.head? = some c := by
  rw [string_data_append]
  cases hla : a.data with
  | nil => rw [hla] at ha; simp at ha
  | cons x xs => rw [hla] at ha; simpa using ha

theorem append_ne_of_head (a b t : String) (c c2 : Char)
    (ha : a.data.head? = some c) (hb : b.data.head? = some c2)
    (hc : c ≠ c2) : a ++ t ≠ b := by
  intro he
  apply hc
  have hd : (a ++ t).data.head? = b.data.head? := by rw [he]
  rw [head?_append_of_head? t ha, hb] at hd
  exact Option.some.inj hd

/-! ### Preservation lemmas for the telemetry-parse folds: none of the keys
inserted by the battery-blade loop or the auxiliary-sensor loop starts with
the letter of the schedule-derived sensor names. -/

theorem batteryStep_preserves {n : String} (hn : n.data.head? = some 'S')
    (acc : ParseAcc) (p : Nat × Json) :
    dlookup (batteryStep acc p).sensors n = dlookup acc.sensors n := by
  have hH : ("Homevolt battery " ++ toString p.1).data.head? = some 'H' :=
    head?_append_of_head? _ (by decide)
  have h1 : n ≠ "Homevolt battery " ++ toString p.1 :=
    Ne.symm (append_ne_of_head _ _ _ 'H' 'S' (by decide) hn (by decide))
  have h2 : ∀ t : String, n ≠ "Homevolt battery " ++ toString p.1 ++ t :=
    fun t => Ne.symm (append_ne_of_head _ _ _ 'H' 'S' hH hn (by decide))
  simp only [batteryStep]
  rw [dlookup_ite_dset_ne _ _ _ _ _ (h2 " soh"),
      dlookup_ite_dset_ne _ _ _ _ _ (h2 " power"),
      dlookup_ite_dset_ne _ _ _ _ _ (h2 " current"),
      dlookup_ite_dset_ne _ _ _ _ _ (h2 " voltage"),
      dlookup_ite_dset_ne _ _ _ _ _ (h2 " charge cycles"),
      dlookup_ite_dset_ne _ _ _ _ _ (h2 " tmax"),
      dlookup_ite_dset_ne _ _ _ _ _ (h2 " tmin"),
      dlookup_ite_dset_ne _ _ _ _ _ h1]

theorem phaseStep_preserves (st sid : String) {n : String}
    (hn : n.data.head? = some 'S') (m : List (String × Sensor))
    (pp : String × Json) (hp : pp.1 = "L1" ∨ pp.1 = "L2" ∨ pp.1 = "L3") :
    dlookup (phaseStep st sid m pp) n = dlookup m n := by
  obtain ⟨pn, ph⟩ := pp
  dsimp only at hp
  rcases hp with rfl | rfl | rfl <;>
    (simp only [phaseStep]
     rw [dlookup_dset_ne _ _ _ _
           (Ne.symm (append_ne_of_head _ _ st 'L' 'S' (by decide) hn (by decide))),
         dlookup_dset_ne _ _ _ _
           (Ne.symm (append_ne_of_head _ _ st 'L' 'S' (by decide) hn (by decide))),
         dlookup_dset_ne _ _ _ _
           (Ne.symm (append_ne_of_head _ _ st 'L' 'S' (by decide) hn (by decide)))])

theorem foldl_phase_preserves (st sid : String) {n : String}
    (hn : n.data.head? = some 'S') :
    ∀ (l : List (String × Json)),
      (∀ pp ∈ l, pp.1 = "L1" ∨ pp.1 = "L2" ∨ pp.1 = "L3") →
      ∀ m, dlookup (l.foldl (phaseStep st sid) m) n = dlookup m n := by
  intro l
  induction l with
  | nil => intro _ m; rfl
  | cons pp rest ih =>
    intro hl m
    rw [List.foldl_cons, ih (fun x hx => hl x (List.mem_cons_of_mem _ hx)),
        phaseStep_preserves st sid hn m pp (hl pp (List.mem_cons_self _ _))]

theorem auxStep_preserves {n : String} (hn : n.data.head? = some 'S')
    (acc : ParseAcc) (sensor : Json) :
    dlookup (auxStep acc sensor).sensors n = dlookup acc.sensors n := by
  have hz : ∀ pp ∈ List.zip ["L1", "L2", "L3"]
      (jlist (sensor.getD "phase" (.arr []))),
      pp.1 = "L1" ∨ pp.1 = "L2" ∨ pp.1 = "L3" := by
    intro pp hpp
    obtain ⟨p1, p2⟩ := pp
    have hm := (List.of_mem_zip hpp).1
    simpa using hm
  simp only [auxStep]
  cases h : auxResolve sensor with
  | none => rfl
  | some trip =>
    obtain ⟨st0, fn, euid⟩ := trip
    simp only []
    rw [foldl_phase_preserves _ _ hn _ hz,
        dlookup_dset_ne _ _ _ _
          (Ne.symm (append_ne_of_head _ _ _ 'A' 'S' (by decide) hn (by decide))),
        dlookup_dset_ne _ _ _ _
          (Ne.symm (append_ne_of_head _ _ _ 'R' 'S' (by decide) hn (by decide))),
        dlookup_dset_ne _ _ _ _
          (Ne.symm (append_ne_of_head _ _ _ 'E' 'S' (by decide) hn (by decide))),
        dlookup_dset_ne _ _ _ _
          (Ne.symm (append_ne_of_head _ _ _ 'E' 'S' (by decide) hn (by decide))),
        dlookup_dset_ne _ _ _ _
          (Ne.symm (append_ne_of_head _ _ _ 'P' 'S' (by decide) hn (by decide)))]

theorem foldl_battery_preserves {n : String} (hn : n.data.head? = some 'S') :
    ∀ (l : List (Nat × Json)) (acc : ParseAcc),
      dlookup ((l.foldl batteryStep acc)).sensors n = dlookup acc.sensors n := by
  intro l
  induction l with
  | nil => intro acc; rfl
  | cons p rest ih =>
    intro acc
    rw [List.foldl_cons, ih, batteryStep_preserves hn]

theorem foldl_aux_preserves {n : String} (hn : n.data.head? = some 'S') :
    ∀ (l : List Json) (acc : ParseAcc),
      dlookup ((l.foldl auxStep acc)).sensors n = dlookup acc.sensors n := by
  intro l
  induction l with
  | nil => intro acc; rfl
  | cons x rest ih =>
    intro acc
    rw [List.foldl_cons, ih, auxStep_preserves hn]

/-! ### Concrete states and requests used by the claim theorems -/

/-- A freshly constructed client: no device id, no sensors, every control
state field unset, no schedule response recorded. -/
def c1_state : ClientState := {}

/-- The request of claim C1: only `setpoint=1000`. -/
def c1_req : ModeRequest := { setpoint := some 1000 }

/-- The stored state of claim C3: mode `inverter_charge` (device code 1)
and `max_charge` 500, with local mode already enabled so that the only
network effect is the command POST. -/
def c3_state : ClientState :=
  { schedule := { mode := .num 1, max_charge := .num 500 },
    current_schedule := some (.obj [("local_mode", .bool true)]) }

/-- The state of claim C4: local mode not enabled (no schedule response
recorded yet). -/
def c4_state : ClientState := {}

/-- The request of claim C4: an unknown mode name. -/
def c4_req : ModeRequest := { mode := some "bogus" }

/-- A client that has discovered device id "1", with an otherwise fresh
state. -/
def c5_state : ClientState := { unique_id := some "1" }

/-- A schedule response whose schedule list is present but empty. -/
def c5_resp : Json := .obj [("schedule", .arr [])]

/-- A client with local mode enabled, used for explicit-mode calls. -/
def c5_mode_state : ClientState :=
  { current_schedule := some (.obj [("local_mode", .bool true)]) }

/-- An explicit-mode request using the display name "Idle", which is what
the shipped reverse table accepts. -/
def c5_mode_req : ModeRequest := { mode := some "Idle" }

/-- The state of claim C6: no device id known yet, with a stored mode that
would be visibly overwritten if the parse wrote control state. -/
def c6_state : ClientState := { schedule := { mode := .num 7 } }

/-- A well-formed schedule response reporting mode 5. -/
def c6_resp : Json :=
  .obj [("schedule", .arr [.obj [("type", .num 5), ("params", .obj [])]])]

/-- A telemetry response with no `ems` key at all. -/
def c7_resp : Json := .obj []

/-- The auxiliary sensor entry of claim C9: available, no `sensor_type`
field, `type` exactly "ems", and a device identifier. -/
def c9_sensor : Json :=
  .obj [("available", .bool true), ("type", .str "ems"), ("euid", .str "aa")]

/-- The invariant asserted by the spec, stated from the spec's words for
comparison with what the code stores: the control-state mode field is
either unset or an integer in the range 0–9. -/
def specModeInvariant : Json → Bool
  | .null => true
  | .num q => q.den == 1 && (0 ≤ q.num && q.num ≤ 9)
  | _ => false

/-! ### Claim theorems -/

/-- C1, counterexample: with an empty stored state and only
`setpoint=1000`, the inferred mode is 3, but the rendered command is
`sched_set -m 3 -s 1000 -c 0 -d 0 -n 0 -x 100`: besides `-s 1000` it also
carries `-c 0 -d 0 -n 0 -x 100`, because the per-mode nulling chain runs
before mode auto-detection and therefore never applies to an inferred
mode.  The claimed command (mode flag plus `-s 1000` alone) is not what is
sent. -/
theorem C1_counterexample :
    (set_battery_mode c1_state c1_req).effects
        = [.enableLocalMode,
           .postCommand "sched_set -m 3 -s 1000 -c 0 -d 0 -n 0 -x 100"] ∧
      "sched_set -m 3 -s 1000 -c 0 -d 0 -n 0 -x 100"
        ≠ "sched_set -m 3 -s 1000" :=
  ⟨rfl, by decide⟩

/-- C1, amended: with an empty stored state and only `setpoint=1000`, the
resolved mode is "grid_charge" (code 3), and the rendered command carries,
beyond the mode flag, the flags `-s 1000 -c 0 -d 0 -n 0 -x 100` — the
unsupplied numeric fields are rendered at their merge defaults (0, 0, 0,
100) rather than omitted, while the grid import/export limits stay absent;
the write-back stores the sent values. -/
theorem C1_amended :
    (set_battery_mode c1_state c1_req).effects
        = [.enableLocalMode,
           .postCommand "sched_set -m 3 -s 1000 -c 0 -d 0 -n 0 -x 100"] ∧
      (set_battery_mode c1_state c1_req).state.schedule.mode = .num 3 ∧
      (set_battery_mode c1_state c1_req).state.schedule.setpoint
        = .num 1000 ∧
      (set_battery_mode c1_state c1_req).state.schedule.max_charge
        = .num 0 ∧
      (set_battery_mode c1_state c1_req).state.schedule.grid_import_limit
        = .null ∧
      (set_battery_mode c1_state c1_req).err = none :=
  ⟨rfl, rfl, rfl, rfl, rfl, rfl⟩

/-- C2: the claim (the schedule-code table is a bijection between the
integer codes 0–9 and mode names) is right about the intent — the rest of
the source annotates `mode_int: int | None`, compares it with the integers
0–9, defaults `schedule.get("type", -1)` into the table lookup, and its
docstring offers 'idle' as a valid mode argument — but the shipped
`SCHEDULE_TYPE` has only string keys (name → display string): every
integer lookup misses, and the docstring's own example mode name 'idle' is
rejected by the reverse-table validation. -/
theorem C2_table_has_no_integer_codes :
    (∀ q : ℚ, dictGet SCHEDULE_TYPE (.num q) = .null) ∧
      isValidMode "idle" = false :=
  ⟨fun _ => rfl, by decide⟩

/-- C3, counterexample: with stored mode 1 (inverter charge) and stored
`max_charge` 500, a call with no arguments keeps mode 1 but renders
`-s 0` and `-d 0` instead of omitting the setpoint and max-discharge
flags: the nulling chain never runs for the stored-mode fallback path. -/
theorem C3_counterexample :
    (set_battery_mode c3_state {}).effects
        = [.postCommand "sched_set -m 1 -s 0 -c 500 -d 0 -n 0 -x 100"] ∧
      "sched_set -m 1 -s 0 -c 500 -d 0 -n 0 -x 100"
        ≠ "sched_set -m 1 -c 500 -n 0 -x 100" :=
  ⟨rfl, by decide⟩

/-- C3, amended: with stored mode 1 (inverter charge) and stored
`max_charge` 500, a no-argument call resolves to the stored mode 1, but
the rendered command is `sched_set -m 1 -s 0 -c 500 -d 0 -n 0 -x 100`:
setpoint and max_discharge are rendered as their merge default 0, not
cleared, because the per-mode nulling applies only when a mode name is
supplied explicitly (and the write-back stores those zeros). -/
theorem C3_amended :
    (set_battery_mode c3_state {}).state.schedule.mode = .num 1 ∧
      (set_battery_mode c3_state {}).effects
        = [.postCommand "sched_set -m 1 -s 0 -c 500 -d 0 -n 0 -x 100"] ∧
      (set_battery_mode c3_state {}).state.schedule.setpoint = .num 0 ∧
      (set_battery_mode c3_state {}).state.schedule.max_discharge
        = .num 0 ∧
      (set_battery_mode c3_state {}).err = none :=
  ⟨rfl, rfl, rfl, rfl, rfl⟩

/-- C4, counterexample: with local mode not yet enabled, a call with the
unknown mode name "bogus" issues the enable-local-mode network request
BEFORE raising the validation error — the claim that the error precedes
every network call, including the enable-local-mode command, is false
(the error does leave stored state unchanged). -/
theorem C4_counterexample :
    set_battery_mode c4_state c4_req
        = ⟨c4_state, [.enableLocalMode], some .valueError⟩ ∧
      ([Effect.enableLocalMode] : List Effect) ≠ [] :=
  ⟨rfl, by decide⟩

/-- C4, amended: a call with an unrecognized mode name raises the
validation error before the mode-set command is posted (no `postCommand`
effect is issued) and leaves the stored state unchanged — but the
enable-local-mode request may already have been sent when local mode was
not enabled. -/
theorem C4_amended (s : ClientState) (req : ModeRequest) (m : String)
    (hm : req.mode = some m) (hv : isValidMode m = false) :
    (set_battery_mode s req).state = s ∧
      (set_battery_mode s req).err = some .valueError ∧
      ∀ c : String, Effect.postCommand c ∉ (set_battery_mode s req).effects := by
  simp only [set_battery_mode, hm, hv]
  refine ⟨rfl, rfl, ?_⟩
  intro c
  by_cases hc : (!(local_mode_enabled s).truthy) = true
  · simp [hc]
  · simp [hc]

/-- C4, witness for the amended theorem at the concrete inputs of the
counterexample scenario. -/
theorem C4_witness :
    c4_req.mode = some "bogus" ∧ isValidMode "bogus" = false ∧
      (set_battery_mode c4_state c4_req).state = c4_state ∧
      (set_battery_mode c4_state c4_req).err = some .valueError ∧
      Effect.postCommand "sched_set -m 0"
        ∉ (set_battery_mode c4_state c4_req).effects :=
  ⟨rfl, by decide, (C4_amended c4_state c4_req "bogus" rfl (by decide)).1,
   (C4_amended c4_state c4_req "bogus" rfl (by decide)).2.1,
   (C4_amended c4_state c4_req "bogus" rfl (by decide)).2.2 _⟩

/-- C6, counterexample: with no device id known, parsing a schedule
response that reports mode 5 changes nothing but the recorded raw
response: the stored mode stays 7, so the control state is NOT overwritten
with the values the parse would compute. -/
theorem C6_counterexample :
    parse_schedule_data c6_state c6_resp
        = { c6_state with current_schedule := some c6_resp } ∧
      (parse_schedule_data c6_state c6_resp).schedule.mode = .num 7 ∧
      (parse_schedule_data c6_state c6_resp).schedule.mode ≠ .num 5 := by
  refine ⟨rfl, rfl, ?_⟩
  intro h
  rw [show (parse_schedule_data c6_state c6_resp).schedule.mode = Json.num 7
        from rfl] at h
  injection h with hq
  norm_num at hq

/-- C6, amended: while no device id is known (never discovered, or falsy),
a schedule parse records the raw response and changes nothing else: it
neither produces sensors nor overwrites the control state (the method
returns before the control-state writes). -/
theorem C6_amended (s : ClientState) (d : Json)
    (h : s.unique_id = none ∨ s.unique_id = some "") :
    parse_schedule_data s d = { s with current_schedule := some d } := by
  rcases h with h | h <;> simp [parse_schedule_data, h]

/-- C6, witness for the amended theorem on a fresh client. -/
theorem C6_witness :
    (c6_state.unique_id = none ∨ c6_state.unique_id = some "") ∧
      parse_schedule_data c6_state c6_resp
        = { c6_state with current_schedule := some c6_resp } :=
  ⟨Or.inl rfl, C6_amended c6_state c6_resp (Or.inl rfl)⟩

/-- C7: a telemetry response whose top-level `ems` entry is absent, empty
or otherwise falsy raises the data error, and the client state — sensors,
device metadata, and the discovered device id — is returned unchanged
(the source raises before its first assignment). -/
theorem C7_empty_ems_raises (s : ClientState) (ems_data : Json)
    (h : (ems_data.get "ems").truthy = false) :
    parse_ems_data s ems_data = (s, some .dataError) := by
  simp [parse_ems_data, h]

/-- C7, witness: a response with no `ems` key, against a fresh client. -/
theorem C7_witness :
    ((c7_resp.get "ems").truthy = false) ∧
      parse_ems_data c1_state c7_resp = (c1_state, some .dataError) :=
  ⟨rfl, C7_empty_ems_raises c1_state c7_resp rfl⟩

/-- What a schedule parse does when the device id is known and the
schedule list is absent, empty or otherwise falsy: the whole control state
becomes the synthetic entry's values (mode -1, everything else unset) and
the "Schedule Type" sensor carries no resolved display value. -/
theorem parse_schedule_data_empty (s : ClientState) (d : Json)
    (uid : String) (h1 : s.unique_id = some uid) (h2 : uid ≠ "")
    (h3 : (d.get "schedule").truthy = false) :
    (parse_schedule_data s d).schedule
        = { mode := .num (-1) } ∧
      dlookup (parse_schedule_data s d).sensors "Schedule Type"
        = some ⟨.null, "schedule_type", "ems_" ++ uid⟩ := by
  simp only [parse_schedule_data, h1, h3]
  rw [if_neg h2]
  constructor
  · rfl
  · rw [dlookup_dset_ne _ _ _ _ (by decide),
        dlookup_dset_ne _ _ _ _ (by decide),
        dlookup_dset_ne _ _ _ _ (by decide),
        dlookup_dset_self]
    rfl

/-- C8: when the device id is known, a schedule response whose schedule
list is absent or empty is parsed through the synthetic entry
`{"type": -1, "params": {}}`: the stored mode becomes -1, the parameter
fields stay unset, and the emitted "Schedule Type" sensor has a null value
(the table lookup of -1 misses). -/
theorem C8_empty_schedule (s : ClientState) (d : Json) (uid : String)
    (h1 : s.unique_id = some uid) (h2 : uid ≠ "")
    (h3 : (d.get "schedule").truthy = false) :
    (parse_schedule_data s d).schedule.mode = .num (-1) ∧
      (parse_schedule_data s d).schedule.setpoint = .null ∧
      (parse_schedule_data s d).schedule.min_soc = .null ∧
      dlookup (parse_schedule_data s d).sensors "Schedule Type"
        = some ⟨.null, "schedule_type", "ems_" ++ uid⟩ := by
  obtain ⟨hs, hl⟩ := parse_schedule_data_empty s d uid h1 h2 h3
  exact ⟨by rw [hs], by rw [hs], by rw [hs], hl⟩

/-- C8, witness: device id "1", schedule response with an empty schedule
list. -/
theorem C8_witness :
    c5_state.unique_id = some "1" ∧
      ((c5_resp.get "schedule").truthy = false) ∧
      (parse_schedule_data c5_state c5_resp).schedule.mode = .num (-1) ∧
      dlookup (parse_schedule_data c5_state c5_resp).sensors "Schedule Type"
        = some ⟨.null, "schedule_type", "ems_1"⟩ :=
  ⟨rfl, rfl, (C8_empty_schedule c5_state c5_resp "1" rfl (by decide) rfl).1,
   (C8_empty_schedule c5_state c5_resp "1" rfl (by decide) rfl).2.2.2⟩

/-- C5, counterexample: the 0–9 invariant on the stored mode does not
hold.  Parsing a schedule response with an empty schedule list stores the
sentinel -1 (outside 0–9), and a successful mode-set whose mode was given
explicitly by name writes the looked-up NAME STRING back into the mode
field (under the shipped table, `valid_modes` maps display strings to
snake_case names, so `mode_int` is a string). -/
theorem C5_counterexample :
    (parse_schedule_data c5_state c5_resp).schedule.mode = .num (-1) ∧
      specModeInvariant
        (parse_schedule_data c5_state c5_resp).schedule.mode = false ∧
      (set_battery_mode c5_mode_state c5_mode_req).state.schedule.mode
        = .str "idle" ∧
      specModeInvariant
        (set_battery_mode c5_mode_state c5_mode_req).state.schedule.mode
        = false :=
  ⟨rfl, rfl, rfl, rfl⟩

/-- C5, amended: (i) a schedule parse of an empty schedule list stores
mode -1 (so values outside 0–9 do occur); (ii) a successful mode-set with
an explicitly supplied valid mode name stores a string, not an integer, so
it breaks the claimed invariant; (iii) only the no-explicit-mode path
maintains it: when no mode name is supplied and the stored mode was unset,
the written-back mode is an integer in 0–9. -/
theorem C5_amended :
    (∀ (s : ClientState) (d : Json) (uid : String),
      s.unique_id = some uid → uid ≠ "" →
      (d.get "schedule").truthy = false →
      (parse_schedule_data s d).schedule.mode = .num (-1)) ∧
    (∀ (s : ClientState) (req : ModeRequest) (m : String),
      req.mode = some m → isValidMode m = true →
      specModeInvariant (set_battery_mode s req).state.schedule.mode
        = false) ∧
    (∀ (s : ClientState) (req : ModeRequest),
      req.mode = none → s.schedule.mode = .null →
      specModeInvariant (set_battery_mode s req).state.schedule.mode
        = true) := by
  refine ⟨?_, ?_, ?_⟩
  · intro s d uid h1 h2 h3
    rw [(parse_schedule_data_empty s d uid h1 h2 h3).1]
  · intro s req m hm hv
    simp only [isValidMode, valid_modes, SCHEDULE_TYPE, List.map,
      List.any, Json.keyEq, Bool.or_eq_true, beq_iff_eq] at hv
    rcases hv with h | h | h | h | h | h | h | h | h | h | h <;>
      first
        | exact absurd h (by decide)
        | (subst h
           simp [set_battery_mode, hm, isValidMode, valid_modes,
             SCHEDULE_TYPE, dictGet, Json.keyEq, Json.isNull,
             specModeInvariant])
  · intro s req hm h0
    cases hsp : req.setpoint <;> cases hmc : req.max_charge <;>
      cases hmd : req.max_discharge <;>
      simp [set_battery_mode, hm, hsp, hmc, hmd, h0, Json.isNull,
        Json.keyEq, specModeInvariant]

/-- C5, witness for the amended theorem: part (i) at device id "1" with an
empty schedule list, part (ii) at the valid display name "Idle", part
(iii) at a fresh state with a no-argument request. -/
theorem C5_witness :
    (parse_schedule_data c5_state c5_resp).schedule.mode = .num (-1) ∧
      specModeInvariant
        (set_battery_mode c5_mode_state c5_mode_req).state.schedule.mode
        = false ∧
      specModeInvariant
        (set_battery_mode c5_state {}).state.schedule.mode = true :=
  ⟨C5_amended.1 c5_state c5_resp "1" rfl (by decide) rfl,
   C5_amended.2.1 c5_mode_state c5_mode_req "Idle" rfl (by decide),
   C5_amended.2.2 c5_state {} rfl rfl⟩

/-- C9, counterexample: an available auxiliary sensor with no
`sensor_type` field, `type` exactly "ems", and a device identifier is NOT
skipped — the "ems" comparison lives only in the `sensor_type` branch, so
the claimed "skip regardless of which field resolved the type" is false. -/
theorem C9_counterexample :
    auxSkipped c9_sensor = false ∧
      auxResolve c9_sensor = some (.str "ems", "", .str "aa") :=
  ⟨rfl, rfl⟩

/-- C9, amended: an auxiliary sensor entry is skipped if and only if its
`available` value is falsy, or both its `sensor_type` and `type` values
are falsy (absent included), or its `euid` is falsy, or its `sensor_type`
value is truthy and equal to "ems" — the "ems" test applies only to the
`sensor_type` field, not to a type resolved from `type`. -/
theorem C9_amended (sensor : Json) :
    auxSkipped sensor
      = (!(sensor.get "available").truthy
         || (!(sensor.get "sensor_type").truthy
             && !(sensor.get "type").truthy)
         || ((sensor.get "sensor_type").truthy
             && (sensor.get "sensor_type").keyEq (.str "ems"))
         || !(sensor.get "euid").truthy) := by
  unfold auxSkipped auxResolve
  cases h1 : (sensor.get "available").truthy <;>
    cases h2 : (sensor.get "sensor_type").truthy <;>
      cases h3 : (sensor.get "type").truthy <;>
        cases h4 : (sensor.get "euid").truthy <;>
          cases h5 : (sensor.get "sensor_type").keyEq (.str "ems") <;>
            simp [h1, h2, h3, h4, h5]

theorem dlookup_dsets_none {α : Type} (n : String) :
    ∀ (kvs : List (String × α)) (m : List (String × α)),
      dlookup m n = none → (∀ kv ∈ kvs, kv.1 ≠ n) →
      dlookup (dsets m kvs) n = none := by
  intro kvs
  induction kvs with
  | nil => intro m hm _; exact hm
  | cons kv rest ih =>
    intro m hm hk
    rw [show dsets m (kv :: rest) = dsets (dset m kv.1 kv.2) rest from rfl]
    refine ih _ ?_ (fun x hx => hk x (List.mem_cons_of_mem _ hx))
    rw [dlookup_dset_ne _ _ _ _ (Ne.symm (hk kv (List.mem_cons_self _ _)))]
    exact hm

theorem mem_keys_ne {α : Type} (kvs : List (String × α))
    (names : List String) (hkeys : kvs.map Prod.fst = names) (n : String)
    (hn : ¬ n ∈ names) : ∀ kv ∈ kvs, kv.1 ≠ n := by
  intro kv hkv he
  exact hn (hkeys ▸ (he ▸ List.mem_map_of_mem Prod.fst hkv))

/-- The display-name keys of the 19 fixed telemetry sensors, in insertion
order. -/
theorem emsSensorEntries_keys (dev : String) (ems : Json) :
    (emsSensorEntries dev ems).map Prod.fst
      = ["L1 Voltage", "L2 Voltage", "L3 Voltage", "L1_L2 Voltage",
         "L2_L3 Voltage", "L3_L1 Voltage", "L1 Current", "L2 Current",
         "L3 Current", "System Temperature", "Energy imported",
         "Energy exported", "Available Charging Power",
         "Available Discharge Power", "Available Charging Energy",
         "Available Discharge Energy", "Power", "Frequency",
         "State of Charge"] := rfl

theorem ems_base_none (dev : String) (ems : Json) (n : String)
    (hn : ¬ n ∈ ["L1 Voltage", "L2 Voltage", "L3 Voltage", "L1_L2 Voltage",
         "L2_L3 Voltage", "L3_L1 Voltage", "L1 Current", "L2 Current",
         "L3 Current", "System Temperature", "Energy imported",
         "Energy exported", "Available Charging Power",
         "Available Discharge Power", "Available Charging Energy",
         "Available Discharge Energy", "Power", "Frequency",
         "State of Charge"]) :
    dlookup (dsets [] (emsSensorEntries dev ems)) n = none :=
  dlookup_dsets_none n _ _ rfl
    (mem_keys_ne _ _ (emsSensorEntries_keys dev ems) n hn)

/-- A successful telemetry parse rebuilds the sensor dict from scratch,
and no key inserted by it starts with the letter of the schedule-derived
sensor names; hence any sensor name starting with an uppercase S that is
not among the 19 fixed telemetry names is absent afterwards. -/
theorem parse_ems_no_S_sensor (s : ClientState) (d : Json)
    (s2 : ClientState) (h : parse_ems_data s d = (s2, none)) (n : String)
    (hn : n.data.head? = some 'S')
    (hbase : ∀ dev ems,
      dlookup (dsets [] (emsSensorEntries dev ems)) n = none) :
    dlookup s2.sensors n = none := by
  unfold parse_ems_data at h
  cases hg : (d.get "ems").truthy
  · rw [hg] at h
    simp at h
  · rw [hg] at h
    simp only [Bool.not_true, Bool.false_eq_true, if_false, Prod.mk.injEq]
      at h
    obtain ⟨hs2, -⟩ := h
    rw [← hs2]
    simp only []
    rw [foldl_aux_preserves hn, foldl_battery_preserves hn]
    have hproj : ∀ (ms : List (String × Sensor))
        (md : List (String × DeviceMetadata)),
        (ParseAcc.mk ms md).sensors = ms := fun _ _ => rfl
    rw [hproj]
    exact hbase _ _

/-- C10: after a successful telemetry parse the sensor map contains only
what that parse produced: none of the five schedule-derived sensor names
is present (the parse starts from an empty dict, and every key it inserts
is either one of the 19 fixed telemetry names or starts with "Homevolt
battery", "Power", "Energy", "RSSI", "Average RSSI", or an "L1"/"L2"/"L3"
phase prefix). -/
theorem C10_telemetry_replaces_sensors (s : ClientState) (d : Json)
    (s2 : ClientState) (h : parse_ems_data s d = (s2, none)) :
    dlookup s2.sensors "Schedule id" = none ∧
      dlookup s2.sensors "Schedule Type" = none ∧
      dlookup s2.sensors "Schedule Power Setpoint" = none ∧
      dlookup s2.sensors "Schedule Max Power" = none ∧
      dlookup s2.sensors "Schedule Max Discharge" = none := by
  exact ⟨parse_ems_no_S_sensor s d s2 h "Schedule id" (by decide)
           (fun dev ems => ems_base_none dev ems _ (by decide)),
         parse_ems_no_S_sensor s d s2 h "Schedule Type" (by decide)
           (fun dev ems => ems_base_none dev ems _ (by decide)),
         parse_ems_no_S_sensor s d s2 h "Schedule Power Setpoint" (by decide)
           (fun dev ems => ems_base_none dev ems _ (by decide)),
         parse_ems_no_S_sensor s d s2 h "Schedule Max Power" (by decide)
           (fun dev ems => ems_base_none dev ems _ (by decide)),
         parse_ems_no_S_sensor s d s2 h "Schedule Max Discharge" (by decide)
           (fun dev ems => ems_base_none dev ems _ (by decide))⟩

/-- A minimal well-formed telemetry response: one EMS unit with id 9, no
battery modules, no auxiliary sensors. -/
def c10_resp : Json := .obj [("ems", .arr [.obj [("ecu_id", .num 9)]])]

/-- C10, witness: parsing the minimal telemetry response succeeds and the
resulting sensor map holds none of the schedule-derived names. -/
theorem C10_witness :
    parse_ems_data c1_state c10_resp
        = ((parse_ems_data c1_state c10_resp).1, none) ∧
      dlookup (parse_ems_data c1_state c10_resp).1.sensors "Schedule id"
        = none ∧
      dlookup (parse_ems_data c1_state c10_resp).1.sensors "Schedule Type"
        = none :=
  ⟨rfl,
   (C10_telemetry_replaces_sensors c1_state c10_resp _ rfl).1,
   (C10_telemetry_replaces_sensors c1_state c10_resp _ rfl).2.1⟩

end Homevolt
